import Mathlib

/-
Verification development for the License Analytics Engine of the
Resource-Forecast-AI repository (src/app/services/ai_agent.py together with
the data model in src/app/models/license_models.py).

Embedding conventions:
* Python floats are modelled as rationals (ℚ); calendar dates as integers
  (day numbers, ℤ); `datetime.now().date()` is an explicit `now : ℤ` argument.
* The transcendental operations of numpy/pandas (`np.sin` at the three call
  sites, and the square root hidden inside `Series.std()` and
  `StandardScaler`) are collected in a `NumModel` parameter: an arbitrary
  rational-valued function standing for each of them.  Theorems quantify over
  the model, adding only the bound `|sin| ≤ 1` where a claim needs it.
  The one place where the exact value of a standard deviation matters (the
  `std` entry of the utilization statistics) is modelled by carrying the
  variance (the square of the pandas std) in the field `std_sq`; equalities
  and comparisons of standard deviations transfer through the strictly
  monotone square root on nonnegative arguments.
* `pandas.Series.std()` uses ddof = 1 (sample standard deviation) and yields
  NaN on a single element; this is modelled by `sampleVarOpt` returning
  `none` for series shorter than 2.  `sklearn.StandardScaler` divides by the
  population (ddof = 0) standard deviation, modelled via `popVar`.
* The `IsolationForest` anomaly detector is an external library call; it is
  modelled as an arbitrary function `Detector` of the seed and the scaled
  feature rows, mirroring that the source constructs it with the fixed seed
  `random_state=42` and `contamination=0.1`.
* `analyze_utilization_patterns` returns `{"error": "No usage data provided"}`
  on empty input; this error dictionary is modelled as `Except.error`.
  Fields of the analysis dictionary that no claim mentions and that the rest
  of the engine never reads (usage_trends, seasonality, growth rate) are
  omitted from the record.
-/

namespace ResourceForecast

/-- Numeric model: the transcendental functions used by the source, as
arbitrary rational-valued functions (see header comment). `sqrtq` stands for
the square root inside `Series.std()` and `StandardScaler`; `sin30 i` for
`np.sin(2*pi*i/30)`; `sinMonth d` for `np.sin(2*pi*(month(d)-1)/12)`;
`sinWeek d` for `np.sin(2*pi*weekday(d)/7)` at calendar date `d`. -/
structure NumModel where
  sqrtq : ℚ → ℚ
  sin30 : ℕ → ℚ
  sinMonth : ℤ → ℚ
  sinWeek : ℤ → ℚ

/-- Billing models, from `BillingType` in src/app/models/license_models.py. -/
inductive BillingType where
  | per_user
  | per_task
  | per_storage
  | per_api_call
  | flat_rate
  | tiered
deriving DecidableEq

/-- The fields of `SoftwareLicense` (src/app/models/license_models.py) that
the analytics engine reads. -/
structure SoftwareLicense where
  id : String
  billing_type : BillingType
  cost_per_unit : ℚ
  total_license_cost : ℚ
  license_period_months : ℤ
  start_date : ℤ
  end_date : ℤ
deriving DecidableEq

/-- The fields of `UsageMetric` (src/app/models/license_models.py) that the
analytics engine reads. -/
structure UsageMetric where
  id : String
  license_id : String
  date : ℤ
  units_used : ℚ
  cost_incurred : ℚ
  utilization_percentage : ℚ
deriving DecidableEq

/-- `ForecastData` from src/app/models/license_models.py; the
`seasonal_factors` dictionary with keys "monthly"/"weekly" is modelled as two
fields. -/
structure ForecastData where
  license_id : String
  forecast_date : ℤ
  predicted_usage : ℚ
  predicted_cost : ℚ
  confidence_score : ℚ
  trend : String
  seasonal_monthly : ℚ
  seasonal_weekly : ℚ
deriving DecidableEq

/-- An entry of the `alternative_options` list built by
`RecommendationEngine._suggest_alternatives`. -/
structure AlternativeOption where
  option_name : String
  description : String
  estimated_savings : ℚ
deriving DecidableEq

/-- `Recommendation` from src/app/models/license_models.py. -/
structure Recommendation where
  license_id : String
  recommendation : String
  confidence : ℚ
  reasoning : List String
  estimated_savings : Option ℚ
  risk_factors : List String
  alternative_options : List AlternativeOption
  priority : String
deriving DecidableEq

/-- An entry of the anomaly list built by
`LicenseUtilizationAnalyzer._detect_anomalies`. -/
structure AnomalyRecord where
  date : ℤ
  utilization : ℚ
  cost : ℚ
  anomaly_score : ℚ
deriving DecidableEq

/-- The `utilization_stats` sub-dictionary of the analysis; `std_sq` carries
the square of the pandas standard deviation (`none` models the NaN that
pandas returns for fewer than two points). -/
structure UtilizationStats where
  mean : ℚ
  median : ℚ
  std_sq : Option ℚ
  min : ℚ
  max : ℚ
deriving DecidableEq

/-- The `cost_analysis` sub-dictionary of the analysis. -/
structure CostAnalysis where
  total_cost : ℚ
  average_daily_cost : ℚ
  cost_trend : String
deriving DecidableEq

/-- The analysis dictionary returned by
`LicenseUtilizationAnalyzer.analyze_utilization_patterns` (claim-relevant
fields; see header comment). -/
structure UtilizationAnalysis where
  total_records : ℕ
  date_start : ℤ
  date_end : ℤ
  utilization_stats : UtilizationStats
  cost_analysis : CostAnalysis
  anomalies : List AnomalyRecord

/-- Behaviour of the external `IsolationForest`: given the seed and the
scaled feature rows, a flag (`fit_predict` returned -1) and a score
(`score_samples`) per row. -/
abbrev Detector := ℕ → List (ℚ × ℚ × ℚ) → List (Bool × ℚ)

/-- Arithmetic mean of a list, `Series.mean()`. -/
def mean (xs : List ℚ) : ℚ := xs.sum / xs.length

/-- Insert into a list sorted by date (ascending). -/
def insertByDate (x : UsageMetric) : List UsageMetric → List UsageMetric
  | [] => [x]
  | y :: ys => if x.date ≤ y.date then x :: y :: ys else y :: insertByDate x ys

/-- `df.sort_values('date')`: sort the usage rows by date ascending. -/
def sortByDate : List UsageMetric → List UsageMetric
  | [] => []
  | x :: xs => insertByDate x (sortByDate xs)

/-- Insert into a sorted list of rationals (for the median computation). -/
def insertQ (x : ℚ) : List ℚ → List ℚ
  | [] => [x]
  | y :: ys => if x ≤ y then x :: y :: ys else y :: insertQ x ys

/-- Sort a list of rationals ascending. -/
def sortQ : List ℚ → List ℚ
  | [] => []
  | x :: xs => insertQ x (sortQ xs)

/-- `Series.median()`: middle element of the sorted values, or the average of
the two middle elements. -/
def median (xs : List ℚ) : ℚ :=
  let s := sortQ xs
  let n := xs.length
  if n % 2 = 1 then s.getD (n / 2) 0
  else (s.getD (n / 2 - 1) 0 + s.getD (n / 2) 0) / 2

/-- Smallest element of a list (`Series.min()`), with a default for the empty
list (never hit on the non-empty path). -/
def listMinD (xs : List ℚ) (d : ℚ) : ℚ :=
  match xs with
  | [] => d
  | x :: t => t.foldl min x

/-- Largest element of a list (`Series.max()`). -/
def listMaxD (xs : List ℚ) (d : ℚ) : ℚ :=
  match xs with
  | [] => d
  | x :: t => t.foldl max x

/-- Smallest element of a list of dates (`df['date'].min()`). -/
def listMinZ (xs : List ℤ) (d : ℤ) : ℤ :=
  match xs with
  | [] => d
  | x :: t => t.foldl min x

/-- Largest element of a list of dates (`df['date'].max()`). -/
def listMaxZ (xs : List ℤ) (d : ℤ) : ℤ :=
  match xs with
  | [] => d
  | x :: t => t.foldl max x

/-- Sample variance, `Series.std()**2` with ddof = 1: `none` for fewer than
two points (pandas yields NaN there). -/
def sampleVarOpt (xs : List ℚ) : Option ℚ :=
  if xs.length < 2 then none
  else some ((xs.map (fun x => (x - mean xs) ^ 2)).sum / ((xs.length : ℚ) - 1))

/-- Sample variance as a plain rational; only read on paths where the source
guarantees at least 7 points, where it agrees with `sampleVarOpt`. -/
def sampleVar (xs : List ℚ) : ℚ := (sampleVarOpt xs).getD 0

/-- Population variance (ddof = 0), as used by `sklearn.StandardScaler`. -/
def popVar (xs : List ℚ) : ℚ :=
  (xs.map (fun x => (x - mean xs) ^ 2)).sum / (xs.length : ℚ)

/-- Population variance with divisor n, written from the spec sentence
"population standard deviation" for comparison against the source in C5. -/
def popVarianceSpec (xs : List ℚ) : ℚ :=
  (xs.map (fun x => (x - mean xs) ^ 2)).sum / (xs.length : ℚ)

/-- Least-squares slope of `np.polyfit(x, values, 1)` with x = 0,1,...,n-1. -/
def slopeFit (ys : List ℚ) : ℚ :=
  let n : ℚ := ys.length
  let xs := (List.range ys.length).map (fun i => (i : ℚ))
  let sx := xs.sum
  let sy := ys.sum
  let sxy := ((xs.zip ys).map (fun p => p.1 * p.2)).sum
  let sxx := (xs.map (fun x => x ^ 2)).sum
  (n * sxy - sx * sy) / (n * sxx - sx ^ 2)

/-- `LicenseUtilizationAnalyzer._calculate_trend`. -/
def calcTrend (ys : List ℚ) : String :=
  if ys.length < 2 then "insufficient_data"
  else if slopeFit ys > 1 / 10 then "increasing"
  else if slopeFit ys < -(1 / 10) then "decreasing"
  else "stable"

/-- One column of `StandardScaler.fit_transform`: centre on the mean and
divide by the population standard deviation (scale 1 when the variance is 0,
matching sklearn's constant-column handling). -/
def standardizeCol (nm : NumModel) (xs : List ℚ) : List ℚ :=
  let m := mean xs
  let v := popVar xs
  let scale := if v = 0 then 1 else nm.sqrtq v
  xs.map (fun x => (x - m) / scale)

/-- `LicenseUtilizationAnalyzer._detect_anomalies`: below 10 rows report
nothing; otherwise standardize the three feature columns, run the detector,
and report date, utilization, cost and score for each flagged row. -/
def detectAnomalies (nm : NumModel) (F : Detector) (seed : ℕ)
    (rows : List UsageMetric) : List AnomalyRecord :=
  if rows.length < 10 then []
  else
    let u := standardizeCol nm (rows.map (fun r => r.utilization_percentage))
    let c := standardizeCol nm (rows.map (fun r => r.cost_incurred))
    let n := standardizeCol nm (rows.map (fun r => r.units_used))
    let feats := u.zip (c.zip n)
    let res := F seed feats
    (rows.zip res).filterMap (fun pr =>
      if pr.2.1 then
        some { date := pr.1.date
               utilization := pr.1.utilization_percentage
               cost := pr.1.cost_incurred
               anomaly_score := pr.2.2 }
      else none)

/-- The state set up by `LicenseUtilizationAnalyzer.__init__`: the
`IsolationForest` parameters (contamination 0.1, random_state 42). -/
structure LicenseUtilizationAnalyzer where
  contamination : ℚ
  random_state : ℕ
deriving DecidableEq

/-- `LicenseUtilizationAnalyzer()` - fresh instance with the fixed seed. -/
def LicenseUtilizationAnalyzer.init : LicenseUtilizationAnalyzer :=
  { contamination := 1 / 10, random_state := 42 }

/-- `LicenseUtilizationAnalyzer.analyze_utilization_patterns`; the error
dictionary on empty input is modelled as `Except.error`. -/
def analyze_utilization_patterns (nm : NumModel) (F : Detector)
    (a : LicenseUtilizationAnalyzer) (usage : List UsageMetric) :
    Except String UtilizationAnalysis :=
  match usage with
  | [] => Except.error "No usage data provided"
  | _ :: _ =>
    let rows := sortByDate usage
    let utils := rows.map (fun r => r.utilization_percentage)
    let costs := rows.map (fun r => r.cost_incurred)
    let dates := rows.map (fun r => r.date)
    Except.ok
      { total_records := rows.length
        date_start := listMinZ dates 0
        date_end := listMaxZ dates 0
        utilization_stats :=
          { mean := mean utils
            median := median utils
            std_sq := sampleVarOpt utils
            min := listMinD utils 0
            max := listMaxD utils 0 }
        cost_analysis :=
          { total_cost := costs.sum
            average_daily_cost := mean costs
            cost_trend := calcTrend costs }
        anomalies := detectAnomalies nm F a.random_state rows }

/-- `LicenseForecastingAgent._forecast_usage` on the units_used column of the
date-sorted frame. -/
def forecastUsage (nm : NumModel) (units : List ℚ) (days : ℕ) : List ℚ :=
  if units.length < 7 then List.replicate days (mean units)
  else
    let w := min 7 (units.length / 2)
    let recent := mean (units.drop (units.length - w))
    let trend :=
      if 14 ≤ units.length then (recent - mean (units.take w)) / (units.length : ℚ)
      else 0
    (List.range days).map
      (fun (i : ℕ) => (recent + trend * ((i : ℚ) + 1)) * (1 + (1 / 10) * nm.sin30 i))

/-- `LicenseForecastingAgent._forecast_costs`. -/
def forecastCosts (nm : NumModel) (units : List ℚ) (lic : SoftwareLicense)
    (days : ℕ) : List ℚ :=
  let usageF := forecastUsage nm units days
  if lic.billing_type = BillingType.per_task then
    usageF.map (fun x => x * lic.cost_per_unit)
  else if lic.billing_type = BillingType.flat_rate then
    List.replicate days
      (lic.total_license_cost / ((lic.license_period_months : ℚ) * 30))
  else
    usageF.map (fun x => x * lic.cost_per_unit)

/-- `LicenseForecastingAgent._calculate_confidence`. -/
def calculateConfidence (nm : NumModel) (units : List ℚ) (forecast_day : ℕ) : ℚ :=
  if units.length < 7 then 3 / 10
  else
    let base_confidence : ℚ := 4 / 5
    let decay_factor : ℚ := 19 / 20
    let confidence := base_confidence * decay_factor ^ forecast_day
    let data_consistency :=
      if mean units > 0 then 1 - nm.sqrtq (sampleVar units) / mean units
      else 1 / 2
    max (1 / 10) (min (19 / 20) (confidence * data_consistency))

/-- `LicenseForecastingAgent._determine_trend`. -/
def determineTrend (units : List ℚ) (forecastU : List ℚ) : String :=
  if units.length < 7 then "stable"
  else
    let recent := mean (units.drop (units.length - 7))
    let favg :=
      if 7 ≤ forecastU.length then mean (forecastU.take 7) else mean forecastU
    let change := if recent > 0 then (favg - recent) / recent else 0
    if change > 1 / 10 then "upward"
    else if change < -(1 / 10) then "downward"
    else "stable"

/-- `LicenseForecastingAgent.generate_forecast`: one `ForecastData` per day
of the horizon, dated from the day after `now`; empty input gives the empty
list. -/
def generate_forecast (nm : NumModel) (now : ℤ) (usage : List UsageMetric)
    (lic : SoftwareLicense) (forecast_days : ℕ) : List ForecastData :=
  match usage with
  | [] => []
  | _ :: _ =>
    let rows := sortByDate usage
    let units := rows.map (fun r => r.units_used)
    let usageF := forecastUsage nm units forecast_days
    let costF := forecastCosts nm units lic forecast_days
    (List.range forecast_days).map (fun (i : ℕ) =>
      let fdate := now + (i : ℤ) + 1
      { license_id := lic.id
        forecast_date := fdate
        predicted_usage := usageF.getD i 0
        predicted_cost := costF.getD i 0
        confidence_score := calculateConfidence nm units i
        trend := determineTrend units usageF
        seasonal_monthly := 1 + (1 / 10) * nm.sinMonth fdate
        seasonal_weekly := 1 + (1 / 20) * nm.sinWeek fdate })

/-- Python's `f"{q:.1f}"` on the (nonnegative on all engine paths)
utilization percentage, modelled by rounding to one decimal. -/
def formatPct (q : ℚ) : String :=
  let m : ℤ := ⌊q * 10 + 1 / 2⌋
  toString (m / 10) ++ "." ++ toString (m % 10)

/-- Reasoning line appended by the low-utilization branch. -/
def lowUtilizationMsg (u : ℚ) : String :=
  "Low utilization (" ++ formatPct u ++ "%) suggests over-provisioning"

/-- Reasoning line appended by the high-utilization branch. -/
def highUtilizationMsg (u : ℚ) : String :=
  "High utilization (" ++ formatPct u ++ "%) may require upgrade"

/-- Reasoning line appended by the moderate-utilization branch. -/
def moderateUtilizationMsg (u : ℚ) : String :=
  "Moderate utilization (" ++ formatPct u ++ "%) is within acceptable range"

/-- The utilization-based base decision of
`RecommendationEngine._evaluate_license` (the first if/elif/else block):
recommendation, confidence, reasoning list so far. -/
def evalUtilizationStage (avg : ℚ) : String × ℚ × List String :=
  if avg < 30 then
    if avg < 20 then ("cancel", 9 / 10, [lowUtilizationMsg avg])
    else ("downgrade", 4 / 5, [lowUtilizationMsg avg])
  else if avg > 90 then ("negotiate", 4 / 5, [highUtilizationMsg avg])
  else ("renew", 7 / 10, [moderateUtilizationMsg avg])

/-- The cost-trend adjustment block of `_evaluate_license`. -/
def evalCostTrendStage (cost_trend : String) (st : String × ℚ × List String) :
    String × ℚ × List String :=
  if cost_trend = "increasing" then
    let r := st.2.2 ++ ["Increasing cost trend detected"]
    if st.1 = "renew" then ("negotiate", min (st.2.1 + 1 / 10) (19 / 20), r)
    else (st.1, st.2.1, r)
  else if cost_trend = "decreasing" then
    (st.1, min (st.2.1 + 1 / 20) (19 / 20),
      st.2.2 ++ ["Decreasing cost trend suggests good value"])
  else st

/-- The anomaly adjustment block of `_evaluate_license`. -/
def evalAnomalyStage (num_anomalies : ℕ) (st : String × ℚ × List String) :
    String × ℚ × List String :=
  if 3 < num_anomalies then
    (st.1, max (st.2.1 - 1 / 10) (3 / 10),
      st.2.2 ++ ["Multiple usage anomalies detected (" ++ toString num_anomalies ++ ")"])
  else st

/-- The forecast adjustment block of `_evaluate_license`. -/
def evalForecastStage (forecasts : List ForecastData)
    (st : String × ℚ × List String) : String × ℚ × List String :=
  match forecasts with
  | [] => st
  | _ :: _ =>
    let avgF := mean (forecasts.map (fun f => f.predicted_usage))
    let current :=
      if 7 ≤ forecasts.length then
        mean ((forecasts.take 7).map (fun f => f.predicted_usage))
      else avgF
    if avgF > current * (6 / 5) then
      let r := st.2.2 ++ ["Forecast predicts significant usage increase"]
      if st.1 = "cancel" then ("renew", st.2.1, r) else (st.1, st.2.1, r)
    else if avgF < current * (4 / 5) then
      let r := st.2.2 ++ ["Forecast predicts usage decrease"]
      if st.1 = "renew" then ("downgrade", st.2.1, r) else (st.1, st.2.1, r)
    else st

/-- `RecommendationEngine._evaluate_license`: the four blocks in source
order. The license argument is accepted and unused, as in the source. -/
def evaluateLicense (_lic : SoftwareLicense) (avg : ℚ) (cost_trend : String)
    (forecasts : List ForecastData) (anomalies : List AnomalyRecord) :
    String × ℚ × List String :=
  evalForecastStage forecasts
    (evalAnomalyStage anomalies.length
      (evalCostTrendStage cost_trend (evalUtilizationStage avg)))

/-- `RecommendationEngine._calculate_savings`. -/
def calculateSavings (lic : SoftwareLicense) (recommendation : String)
    (forecasts : List ForecastData) : Option ℚ :=
  match forecasts with
  | [] => none
  | _ :: _ =>
    let annual := lic.total_license_cost * (12 / (lic.license_period_months : ℚ))
    if recommendation = "cancel" then some annual
    else if recommendation = "downgrade" then some (annual * (3 / 10))
    else if recommendation = "negotiate" then some (annual * (15 / 100))
    else some 0

/-- `RecommendationEngine._identify_risks`. -/
def identifyRisks (now : ℤ) (lic : SoftwareLicense) (avg : ℚ)
    (cost_trend : String) (num_anomalies : ℕ) : List String :=
  (if avg > 85 then ["High utilization may lead to service degradation"] else []) ++
  (if cost_trend = "increasing" then ["Increasing costs may impact budget"] else []) ++
  (if 2 < num_anomalies then ["Usage anomalies may indicate operational issues"] else []) ++
  (if lic.end_date - now < 30 then ["License expires soon - urgent action required"] else [])

/-- `RecommendationEngine._suggest_alternatives`. -/
def suggestAlternatives (lic : SoftwareLicense) (avg : ℚ) :
    List AlternativeOption :=
  (if avg < 50 then
    [{ option_name := "Pay-per-use model"
       description := "Switch to usage-based billing to reduce costs"
       estimated_savings := lic.total_license_cost * (4 / 10) }]
   else []) ++
  (if avg > 80 then
    [{ option_name := "Enterprise license"
       description := "Upgrade to enterprise license for better rates"
       estimated_savings := -(lic.total_license_cost * (2 / 10)) }]
   else []) ++
  [{ option_name := "Multi-year contract"
     description := "Sign longer contract for better pricing"
     estimated_savings := lic.total_license_cost * (1 / 10) }]

/-- Python truthiness of `estimated_savings and estimated_savings > t`:
false for `None` and for `0.0`, else the comparison. -/
def savingsExceeds (s : Option ℚ) (t : ℚ) : Bool :=
  match s with
  | none => false
  | some v => if v = 0 then false else decide (t < v)

/-- `RecommendationEngine._determine_priority`. -/
def determinePriority (confidence : ℚ) (estimated_savings : Option ℚ)
    (risk_factors : List String) : String :=
  if decide (2 < risk_factors.length) || savingsExceeds estimated_savings 10000 then
    "high"
  else if decide ((4 / 5 : ℚ) < confidence) || savingsExceeds estimated_savings 5000 then
    "medium"
  else "low"

/-- `RecommendationEngine.generate_recommendations`: analyze (with a fresh
analyzer, as built in `RecommendationEngine.__init__`), forecast 90 days,
then evaluate. The `.get(..., default)` reads of the analysis dictionary
become matches on the `Except` value with the same defaults. -/
def generate_recommendations (nm : NumModel) (F : Detector) (now : ℤ)
    (lic : SoftwareLicense) (usage : List UsageMetric) : Recommendation :=
  let ua := analyze_utilization_patterns nm F LicenseUtilizationAnalyzer.init usage
  let forecasts := generate_forecast nm now usage lic 90
  let avg := match ua with
    | Except.ok a => a.utilization_stats.mean
    | Except.error _ => 0
  let cost_trend := match ua with
    | Except.ok a => a.cost_analysis.cost_trend
    | Except.error _ => "stable"
  let anomalies := match ua with
    | Except.ok a => a.anomalies
    | Except.error _ => []
  let st := evaluateLicense lic avg cost_trend forecasts anomalies
  let savings := calculateSavings lic st.1 forecasts
  let risks := identifyRisks now lic avg cost_trend anomalies.length
  let alts := suggestAlternatives lic avg
  { license_id := lic.id
    recommendation := st.1
    confidence := st.2.1
    reasoning := st.2.2
    estimated_savings := savings
    risk_factors := risks
    alternative_options := alts
    priority := determinePriority st.2.1 savings risks }

/-- A throwaway `ForecastData` used as the default of `List.getD`. -/
def dummyForecast : ForecastData :=
  { license_id := ""
    forecast_date := 0
    predicted_usage := 0
    predicted_cost := 0
    confidence_score := 0
    trend := ""
    seasonal_monthly := 0
    seasonal_weekly := 0 }

/-- Numeric model instance in which every transcendental function is
constantly zero; used to instantiate witnesses. -/
def nmZero : NumModel :=
  { sqrtq := fun _ => 0
    sin30 := fun _ => 0
    sinMonth := fun _ => 0
    sinWeek := fun _ => 0 }

/-- Detector behaviour that never flags a row; used in witnesses. -/
def detectorNone : Detector := fun _ _ => []

/-- A concrete usage point for witnesses. -/
def samplePoint : UsageMetric :=
  { id := "u1"
    license_id := "L1"
    date := 5
    units_used := 10
    cost_incurred := 4
    utilization_percentage := 15 }

/-- A concrete per-task license for witnesses. -/
def sampleLicense : SoftwareLicense :=
  { id := "L1"
    billing_type := BillingType.per_task
    cost_per_unit := 2
    total_license_cost := 1200
    license_period_months := 12
    start_date := 0
    end_date := 1000 }

/-- The std (squared) entry of the utilization statistics of an analysis,
with `none` for both the empty-input error and the single-point NaN. -/
def utilStdSq (nm : NumModel) (F : Detector) (usage : List UsageMetric) :
    Option ℚ :=
  match analyze_utilization_patterns nm F LicenseUtilizationAnalyzer.init usage with
  | Except.ok a => a.utilization_stats.std_sq
  | Except.error _ => none

/-- First point of a two-point series with utilization percentages 0 and 2. -/
def pointA : UsageMetric :=
  { id := "a"
    license_id := "L1"
    date := 1
    units_used := 3
    cost_incurred := 1
    utilization_percentage := 0 }

/-- Second point of the two-point series. -/
def pointB : UsageMetric :=
  { id := "b"
    license_id := "L1"
    date := 2
    units_used := 5
    cost_incurred := 2
    utilization_percentage := 2 }

/-- Day k of a declining series: 140 units on days 0-6, none on days 7-13. -/
def decliningPoint (k : ℕ) : UsageMetric :=
  { id := toString k
    license_id := "L2"
    date := (k : ℤ)
    units_used := if k < 7 then 140 else 0
    cost_incurred := 1
    utilization_percentage := 50 }

/-- A 14-day usage series whose trailing 7-day mean (0) is far below its
leading 7-day mean (140). -/
def decliningSeries : List UsageMetric :=
  [decliningPoint 0, decliningPoint 1, decliningPoint 2, decliningPoint 3,
   decliningPoint 4, decliningPoint 5, decliningPoint 6, decliningPoint 7,
   decliningPoint 8, decliningPoint 9, decliningPoint 10, decliningPoint 11,
   decliningPoint 12, decliningPoint 13]

/-- The units_used column of the declining series. -/
def units14 : List ℚ :=
  [140, 140, 140, 140, 140, 140, 140, 0, 0, 0, 0, 0, 0, 0]

/-- A per-unit (per_task) license with unit cost 1 for the declining-usage
construction. -/
def decliningLicense : SoftwareLicense :=
  { id := "L2"
    billing_type := BillingType.per_task
    cost_per_unit := 1
    total_license_cost := 100
    license_period_months := 12
    start_date := 0
    end_date := 1000 }

theorem getD_range_map {α : Type} (f : ℕ → α) (N i : ℕ) (d : α) (h : i < N) :
    ((List.range N).map f).getD i d = f i := by
  simp [List.getD_eq_getElem?_getD, List.getElem?_map, List.getElem?_range h]

theorem getD_map_of_lt {α β : Type} (f : α → β) (l : List α) (i : ℕ)
    (h : i < l.length) (d : α) (d2 : β) :
    (l.map f).getD i d2 = f (l.getD i d) := by
  simp [List.getD_eq_getElem?_getD, List.getElem?_map, List.getElem?_eq_getElem h]

theorem insertByDate_length (x : UsageMetric) (l : List UsageMetric) :
    (insertByDate x l).length = l.length + 1 := by
  induction l with
  | nil => rfl
  | cons y ys ih =>
    by_cases h : x.date ≤ y.date <;> simp [insertByDate, h, ih]

theorem sortByDate_length (l : List UsageMetric) :
    (sortByDate l).length = l.length := by
  induction l with
  | nil => rfl
  | cons x xs ih => simp [sortByDate, insertByDate_length, ih]

theorem forecastUsage_length (nm : NumModel) (units : List ℚ) (days : ℕ) :
    (forecastUsage nm units days).length = days := by
  unfold forecastUsage
  split_ifs <;> simp

theorem forecastCosts_length (nm : NumModel) (units : List ℚ)
    (lic : SoftwareLicense) (days : ℕ) :
    (forecastCosts nm units lic days).length = days := by
  unfold forecastCosts
  split_ifs <;> simp [forecastUsage_length]

theorem generate_forecast_length (nm : NumModel) (now : ℤ)
    (usage : List UsageMetric) (lic : SoftwareLicense) (N : ℕ)
    (h : usage ≠ []) : (generate_forecast nm now usage lic N).length = N := by
  obtain ⟨a, t, rfl⟩ := List.exists_cons_of_ne_nil h
  simp [generate_forecast]

theorem generate_forecast_getD_eq (nm : NumModel) (now : ℤ) (a : UsageMetric)
    (t : List UsageMetric) (lic : SoftwareLicense) (N i : ℕ) (hi : i < N) :
    (generate_forecast nm now (a :: t) lic N).getD i dummyForecast =
      { license_id := lic.id
        forecast_date := now + i + 1
        predicted_usage :=
          (forecastUsage nm ((sortByDate (a :: t)).map (fun r => r.units_used)) N).getD i 0
        predicted_cost :=
          (forecastCosts nm ((sortByDate (a :: t)).map (fun r => r.units_used)) lic N).getD i 0
        confidence_score :=
          calculateConfidence nm ((sortByDate (a :: t)).map (fun r => r.units_used)) i
        trend :=
          determineTrend ((sortByDate (a :: t)).map (fun r => r.units_used))
            (forecastUsage nm ((sortByDate (a :: t)).map (fun r => r.units_used)) N)
        seasonal_monthly := 1 + (1 / 10) * nm.sinMonth (now + i + 1)
        seasonal_weekly := 1 + (1 / 20) * nm.sinWeek (now + i + 1) } := by
  simp only [generate_forecast]
  rw [getD_range_map _ _ _ _ hi]

/-- C8: with "now" fixed and for any deterministic behaviour of the
isolation-forest library, two calls of analyze (on any two analyzer
instances produced by the constructor, whose random seed is the constant
42), of forecast, and of recommend, on identical inputs, produce identical
outputs - the engine reads no ambient state. -/
theorem engine_calls_are_deterministic (nm : NumModel) (F : Detector)
    (now : ℤ) (lic : SoftwareLicense) (usage : List UsageMetric) (N : ℕ)
    (a1 a2 : LicenseUtilizationAnalyzer)
    (h1 : a1 = LicenseUtilizationAnalyzer.init)
    (h2 : a2 = LicenseUtilizationAnalyzer.init) :
    analyze_utilization_patterns nm F a1 usage =
      analyze_utilization_patterns nm F a2 usage ∧
    generate_forecast nm now usage lic N = generate_forecast nm now usage lic N ∧
    generate_recommendations nm F now lic usage =
      generate_recommendations nm F now lic usage := by
  subst h1
  subst h2
  exact ⟨rfl, rfl, rfl⟩

theorem engine_calls_are_deterministic_witness :
    analyze_utilization_patterns nmZero detectorNone
        LicenseUtilizationAnalyzer.init [samplePoint] =
      analyze_utilization_patterns nmZero detectorNone
        LicenseUtilizationAnalyzer.init [samplePoint] ∧
    generate_forecast nmZero 0 [samplePoint] sampleLicense 3 =
      generate_forecast nmZero 0 [samplePoint] sampleLicense 3 ∧
    generate_recommendations nmZero detectorNone 0 sampleLicense [samplePoint] =
      generate_recommendations nmZero detectorNone 0 sampleLicense [samplePoint] :=
  engine_calls_are_deterministic nmZero detectorNone 0 sampleLicense
    [samplePoint] 3 _ _ rfl rfl

/-- C3: the base decision of `_evaluate_license` as a function of the mean
utilization percentage: below 20 cancel at confidence 0.9, in [20,30)
downgrade at 0.8, above 90 negotiate at 0.8, in [30,90] renew at 0.7; each
branch appends the one reasoning string that embeds the formatted
percentage. -/
theorem base_decision_thresholds (u : ℚ) :
    (u < 20 → evalUtilizationStage u = ("cancel", 9 / 10, [lowUtilizationMsg u])) ∧
    (20 ≤ u → u < 30 →
      evalUtilizationStage u = ("downgrade", 4 / 5, [lowUtilizationMsg u])) ∧
    (90 < u → evalUtilizationStage u = ("negotiate", 4 / 5, [highUtilizationMsg u])) ∧
    (30 ≤ u → u ≤ 90 →
      evalUtilizationStage u = ("renew", 7 / 10, [moderateUtilizationMsg u])) := by
  refine ⟨fun h => ?_, fun h1 h2 => ?_, fun h => ?_, fun h1 h2 => ?_⟩
  · have h30 : u < 30 := by linarith
    simp [evalUtilizationStage, h, h30]
  · have hn : ¬u < 20 := by linarith
    simp [evalUtilizationStage, h2, hn]
  · have hn : ¬u < 30 := by linarith
    simp [evalUtilizationStage, hn, h]
  · have hn : ¬u < 30 := by linarith
    have hn2 : ¬u > 90 := by simpa using h2
    simp [evalUtilizationStage, hn, hn2]

theorem base_decision_thresholds_witness :
    evalUtilizationStage 10 = ("cancel", 9 / 10, [lowUtilizationMsg 10]) :=
  (base_decision_thresholds 10).1 (by norm_num)

theorem savingsExceeds_iff (s : Option ℚ) (t : ℚ) (ht : 0 ≤ t) :
    savingsExceeds s t = true ↔ ∃ v, s = some v ∧ t < v := by
  cases s with
  | none => simp [savingsExceeds]
  | some v =>
    by_cases hv : v = 0
    · subst hv
      simp only [savingsExceeds, if_pos rfl]
      constructor
      · intro h
        exact absurd h (by simp)
      · rintro ⟨w, hw, hlt⟩
        cases Option.some_inj.mp hw
        exact absurd hlt (by linarith)
    · simp [savingsExceeds, hv]

/-- C6: the priority of `_determine_priority` is "high" exactly when there
are more than 2 risk factors or the savings estimate is present and exceeds
10,000; otherwise "medium" exactly when confidence exceeds 0.8 or the
savings estimate is present and exceeds 5,000; otherwise "low"; and more
than 2 risk factors force "high" irrespective of the other arguments. -/
theorem priority_characterization (confidence : ℚ) (savings : Option ℚ)
    (risks : List String) :
    (determinePriority confidence savings risks = "high" ↔
      (2 < risks.length ∨ ∃ v, savings = some v ∧ 10000 < v)) ∧
    (determinePriority confidence savings risks = "medium" ↔
      (¬(2 < risks.length ∨ ∃ v, savings = some v ∧ 10000 < v) ∧
        (4 / 5 < confidence ∨ ∃ v, savings = some v ∧ 5000 < v))) ∧
    (determinePriority confidence savings risks = "low" ↔
      (¬(2 < risks.length ∨ ∃ v, savings = some v ∧ 10000 < v) ∧
        ¬(4 / 5 < confidence ∨ ∃ v, savings = some v ∧ 5000 < v))) ∧
    (2 < risks.length → determinePriority confidence savings risks = "high") := by
  have h10 := savingsExceeds_iff savings 10000 (by norm_num)
  have h5 := savingsExceeds_iff savings 5000 (by norm_num)
  by_cases hA : 2 < risks.length ∨ ∃ v, savings = some v ∧ 10000 < v
  · have hb : (decide (2 < risks.length) || savingsExceeds savings 10000) = true := by
      rcases hA with h | h
      · simp [h]
      · simp [h10.mpr h]
    have hp : determinePriority confidence savings risks = "high" := by
      unfold determinePriority
      rw [hb]
      simp
    refine ⟨by simp [hp, hA], ?_, ?_, fun _ => hp⟩
    · rw [hp]
      constructor
      · intro h
        exact absurd h (by decide)
      · rintro ⟨hna, -⟩
        exact absurd hA hna
    · rw [hp]
      constructor
      · intro h
        exact absurd h (by decide)
      · rintro ⟨hna, -⟩
        exact absurd hA hna
  · have hA1 : ¬2 < risks.length := fun h => hA (Or.inl h)
    have hA2 : ¬∃ v, savings = some v ∧ 10000 < v := fun h => hA (Or.inr h)
    have hse : savingsExceeds savings 10000 = false := by
      rw [← Bool.not_eq_true, h10]
      exact hA2
    have hb : (decide (2 < risks.length) || savingsExceeds savings 10000) = false := by
      simp [hA1, hse]
    by_cases hB : 4 / 5 < confidence ∨ ∃ v, savings = some v ∧ 5000 < v
    · have hb2 : (decide ((4 / 5 : ℚ) < confidence) || savingsExceeds savings 5000) = true := by
        rcases hB with h | h
        · simp [h]
        · simp [h5.mpr h]
      have hp : determinePriority confidence savings risks = "medium" := by
        unfold determinePriority
        rw [hb, hb2]
        simp
      refine ⟨?_, by simp [hp, hA, hB], ?_, fun h => absurd (Or.inl h) hA⟩
      · rw [hp]
        constructor
        · intro h
          exact absurd h (by decide)
        · intro h
          exact absurd h hA
      · rw [hp]
        constructor
        · intro h
          exact absurd h (by decide)
        · rintro ⟨-, hnb⟩
          exact absurd hB hnb
    · have hB1 : ¬(4 / 5 : ℚ) < confidence := fun h => hB (Or.inl h)
      have hB2 : ¬∃ v, savings = some v ∧ 5000 < v := fun h => hB (Or.inr h)
      have hse5 : savingsExceeds savings 5000 = false := by
        rw [← Bool.not_eq_true, h5]
        exact hB2
      have hb2 : (decide ((4 / 5 : ℚ) < confidence) || savingsExceeds savings 5000) = false := by
        simp [hB1, hse5]
      have hp : determinePriority confidence savings risks = "low" := by
        unfold determinePriority
        rw [hb, hb2]
        simp
      refine ⟨?_, ?_, by simp [hp, hA, hB], fun h => absurd (Or.inl h) hA⟩
      · rw [hp]
        constructor
        · intro h
          exact absurd h (by decide)
        · intro h
          exact absurd h hA
      · rw [hp]
        constructor
        · intro h
          exact absurd h (by decide)
        · rintro ⟨-, hb'⟩
          exact absurd hb' hB

/-- C1 is a code bug: on the empty series the analyzer does signal the
empty-input error, but `generate_recommendations` swallows it through its
defaulted dictionary reads, still calls the forecaster, and returns a
full "cancel" recommendation at confidence 0.9 instead of surfacing the
error. This theorem evaluates the code at the failing input. -/
theorem recommend_on_empty_series_returns_recommendation :
    analyze_utilization_patterns nmZero detectorNone
        LicenseUtilizationAnalyzer.init [] =
      Except.error "No usage data provided" ∧
    generate_recommendations nmZero detectorNone 0 sampleLicense [] =
      { license_id := "L1"
        recommendation := "cancel"
        confidence := 9 / 10
        reasoning := [lowUtilizationMsg 0]
        estimated_savings := none
        risk_factors := []
        alternative_options :=
          [{ option_name := "Pay-per-use model"
             description := "Switch to usage-based billing to reduce costs"
             estimated_savings := 480 },
           { option_name := "Multi-year contract"
             description := "Sign longer contract for better pricing"
             estimated_savings := 120 }]
        priority := "medium" } := by
  constructor
  · rfl
  · have hs1 : ¬("stable" = "increasing") := by decide
    have hs2 : ¬("stable" = "decreasing") := by decide
    have hc1 : ¬("cancel" = "renew") := by decide
    have hc2 : ¬("cancel" = "downgrade") := by decide
    have hc3 : ¬("cancel" = "negotiate") := by decide
    norm_num [generate_recommendations, analyze_utilization_patterns,
      generate_forecast, evaluateLicense, evalForecastStage, evalAnomalyStage,
      evalCostTrendStage, evalUtilizationStage, calculateSavings,
      identifyRisks, suggestAlternatives, determinePriority, savingsExceeds,
      sampleLicense, hs1, hs2, hc1, hc2, hc3]

/-- C2: for any non-empty series and horizon N the forecast has exactly N
points, dated `now + i + 1` for the i-th point (so strictly ascending, one
calendar day apart, starting the day after now); the empty series yields the
empty forecast. -/
theorem forecast_returns_horizon_points_with_ascending_dates (nm : NumModel)
    (now : ℤ) (lic : SoftwareLicense) (N : ℕ) :
    (∀ usage : List UsageMetric, usage ≠ [] →
      (generate_forecast nm now usage lic N).length = N ∧
      ∀ i : ℕ, i < N →
        ((generate_forecast nm now usage lic N).getD i dummyForecast).forecast_date
          = now + i + 1) ∧
    generate_forecast nm now [] lic N = [] := by
  refine ⟨fun usage h =>
    ⟨generate_forecast_length nm now usage lic N h, fun i hi => ?_⟩, rfl⟩
  obtain ⟨a, t, rfl⟩ := List.exists_cons_of_ne_nil h
  rw [generate_forecast_getD_eq nm now a t lic N i hi]

theorem forecast_returns_horizon_points_with_ascending_dates_witness :
    (generate_forecast nmZero 0 [samplePoint] sampleLicense 3).length = 3 ∧
    ((generate_forecast nmZero 0 [samplePoint] sampleLicense 3).getD 1
        dummyForecast).forecast_date = 0 + 1 + 1 := by
  have h := (forecast_returns_horizon_points_with_ascending_dates
    nmZero 0 sampleLicense 3).1 [samplePoint] (by simp)
  exact ⟨h.1, by simpa using h.2 1 (by norm_num)⟩

theorem clampConf_antitone (c : ℚ) (i j : ℕ) (hij : i ≤ j) :
    max (1 / 10 : ℚ) (min (19 / 20) ((4 / 5) * (19 / 20) ^ j * c)) ≤
      max (1 / 10 : ℚ) (min (19 / 20) ((4 / 5) * (19 / 20) ^ i * c)) := by
  by_cases hcpos : 0 ≤ c
  · have hpow : (19 / 20 : ℚ) ^ j ≤ (19 / 20 : ℚ) ^ i :=
      pow_le_pow_of_le_one (by norm_num) (by norm_num) hij
    have hmul : (4 / 5 : ℚ) * (19 / 20) ^ j * c ≤ (4 / 5) * (19 / 20) ^ i * c := by
      apply mul_le_mul_of_nonneg_right _ hcpos
      linarith
    exact max_le_max le_rfl (min_le_min le_rfl hmul)
  · push_neg at hcpos
    have hneg : ∀ k : ℕ, (4 / 5 : ℚ) * (19 / 20) ^ k * c < 0 := fun k =>
      mul_neg_of_pos_of_neg (by positivity) hcpos
    have e1 : ∀ k : ℕ,
        max (1 / 10 : ℚ) (min (19 / 20) ((4 / 5) * (19 / 20) ^ k * c)) = 1 / 10 := by
      intro k
      have h1 : min (19 / 20 : ℚ) ((4 / 5) * (19 / 20) ^ k * c)
          = (4 / 5) * (19 / 20) ^ k * c :=
        min_eq_right (le_of_lt (lt_trans (hneg k) (by norm_num)))
      rw [h1]
      exact max_eq_left (le_of_lt (lt_trans (hneg k) (by norm_num)))
    rw [e1 i, e1 j]

theorem calculateConfidence_le (nm : NumModel) (units : List ℚ) (i j : ℕ)
    (hij : i ≤ j) :
    calculateConfidence nm units j ≤ calculateConfidence nm units i := by
  unfold calculateConfidence
  by_cases h : units.length < 7
  · rw [if_pos h, if_pos h]
  · rw [if_neg h, if_neg h]
    exact clampConf_antitone _ i j hij

theorem calculateConfidence_bounds (nm : NumModel) (units : List ℚ) (i : ℕ) :
    1 / 10 ≤ calculateConfidence nm units i ∧
    calculateConfidence nm units i ≤ 19 / 20 := by
  unfold calculateConfidence
  by_cases h : units.length < 7
  · rw [if_pos h]
    constructor <;> norm_num
  · rw [if_neg h]
    exact ⟨le_max_left _ _, max_le (by norm_num) (min_le_left _ _)⟩

/-- C4: for a fixed non-empty series the per-day forecast confidence is
non-increasing in the day index, and every day's confidence lies in
[0.1, 0.95]. -/
theorem forecast_confidence_antitone_and_bounded (nm : NumModel) (now : ℤ)
    (lic : SoftwareLicense) (usage : List UsageMetric) (h : usage ≠ [])
    (N i j : ℕ) (hi : i < N) (hj : j < N) (hij : i ≤ j) :
    ((generate_forecast nm now usage lic N).getD j dummyForecast).confidence_score ≤
      ((generate_forecast nm now usage lic N).getD i dummyForecast).confidence_score ∧
    1 / 10 ≤
      ((generate_forecast nm now usage lic N).getD i dummyForecast).confidence_score ∧
    ((generate_forecast nm now usage lic N).getD i dummyForecast).confidence_score
      ≤ 19 / 20 := by
  obtain ⟨a, t, rfl⟩ := List.exists_cons_of_ne_nil h
  rw [generate_forecast_getD_eq nm now a t lic N i hi,
    generate_forecast_getD_eq nm now a t lic N j hj]
  exact ⟨calculateConfidence_le _ _ _ _ hij,
    (calculateConfidence_bounds _ _ _).1, (calculateConfidence_bounds _ _ _).2⟩

theorem forecast_confidence_antitone_and_bounded_witness :
    ((generate_forecast nmZero 0 [samplePoint] sampleLicense 5).getD 3
        dummyForecast).confidence_score ≤
      ((generate_forecast nmZero 0 [samplePoint] sampleLicense 5).getD 1
        dummyForecast).confidence_score ∧
    1 / 10 ≤
      ((generate_forecast nmZero 0 [samplePoint] sampleLicense 5).getD 1
        dummyForecast).confidence_score ∧
    ((generate_forecast nmZero 0 [samplePoint] sampleLicense 5).getD 1
        dummyForecast).confidence_score ≤ 19 / 20 :=
  forecast_confidence_antitone_and_bounded nmZero 0 sampleLicense [samplePoint]
    (by simp) 5 1 3 (by norm_num) (by norm_num) (by norm_num)

/-- C5 counterexample: pandas `Series.std()` uses divisor n-1, not n. For
the two-point series with utilizations 0 and 2 the code's squared std is 2
while the squared population standard deviation is 1 (so the stds, their
square roots, differ as well); and for a single-point series the code yields
NaN (modelled `none`), not 0. -/
theorem std_not_population_std_counterexample :
    utilStdSq nmZero detectorNone [pointA, pointB] ≠
      some (popVarianceSpec
        ((sortByDate [pointA, pointB]).map (fun r => r.utilization_percentage))) ∧
    utilStdSq nmZero detectorNone [pointA] ≠ some 0 := by
  constructor
  · intro h
    rw [show sortByDate [pointA, pointB] = [pointA, pointB] by rfl] at h
    norm_num [utilStdSq, analyze_utilization_patterns, sampleVarOpt,
      popVarianceSpec, mean, sortByDate, insertByDate, pointA, pointB] at h
  · intro h
    norm_num [utilStdSq, analyze_utilization_patterns, sampleVarOpt,
      sortByDate, insertByDate, pointA] at h
    exact Option.noConfusion h

/-- C5 amended: for a series of at least two points the std entry of the
utilization statistics is the sample standard deviation (divisor n-1): its
square equals the population variance scaled by n/(n-1); for a single-point
series the entry is NaN (absent), not 0. -/
theorem std_is_sample_std (nm : NumModel) (F : Detector)
    (usage : List UsageMetric) :
    (2 ≤ usage.length →
      utilStdSq nm F usage =
        some (popVarianceSpec
            ((sortByDate usage).map (fun r => r.utilization_percentage)) *
          (usage.length : ℚ) / ((usage.length : ℚ) - 1))) ∧
    (usage.length = 1 → utilStdSq nm F usage = none) := by
  constructor
  · intro h2
    have hne : usage ≠ [] := by
      rintro rfl
      simp at h2
    obtain ⟨a, t, rfl⟩ := List.exists_cons_of_ne_nil hne
    have hlen : ((sortByDate (a :: t)).map
        (fun r => r.utilization_percentage)).length = (a :: t).length := by
      rw [List.length_map, sortByDate_length]
    simp only [utilStdSq, analyze_utilization_patterns]
    rw [sampleVarOpt, if_neg (by omega)]
    rw [popVarianceSpec, hlen]
    congr 1
    have hn2 : (2 : ℚ) ≤ ((a :: t).length : ℚ) := by exact_mod_cast h2
    have h0 : ((a :: t).length : ℚ) ≠ 0 := by linarith
    have h1 : ((a :: t).length : ℚ) - 1 ≠ 0 := by
      intro hh
      have : ((a :: t).length : ℚ) = 1 := by linarith
      linarith
    field_simp
  · intro h1
    obtain ⟨a, rfl⟩ := List.length_eq_one.mp h1
    simp [utilStdSq, analyze_utilization_patterns, sampleVarOpt,
      sortByDate, insertByDate]

theorem std_is_sample_std_witness :
    utilStdSq nmZero detectorNone [pointA, pointB] =
      some (popVarianceSpec
          ((sortByDate [pointA, pointB]).map (fun r => r.utilization_percentage)) *
        2 / (2 - 1)) := by
  have h := (std_is_sample_std nmZero detectorNone [pointA, pointB]).1
    (by norm_num)
  simpa using h

/-- C7: every point of a forecast carries a predicted cost equal to
totalCost/(periodMonths*30) when the billing model is flat-rate (independent
of the predicted usage), and equal to that point's predicted usage times the
cost-per-unit for every other billing model (per_task explicitly, and all
unrecognized models through the per-unit default branch). -/
theorem cost_projection_by_billing_model (nm : NumModel) (now : ℤ)
    (usage : List UsageMetric) (lic : SoftwareLicense) (N : ℕ)
    (pt : ForecastData) (hmem : pt ∈ generate_forecast nm now usage lic N) :
    (lic.billing_type = BillingType.flat_rate →
      pt.predicted_cost =
        lic.total_license_cost / ((lic.license_period_months : ℚ) * 30)) ∧
    (lic.billing_type ≠ BillingType.flat_rate →
      pt.predicted_cost = pt.predicted_usage * lic.cost_per_unit) := by
  cases usage with
  | nil => simp [generate_forecast] at hmem
  | cons a t =>
    simp only [generate_forecast, List.mem_map, List.mem_range] at hmem
    obtain ⟨i, hiR, rfl⟩ := hmem
    constructor
    · intro hflat
      simp only [forecastCosts]
      rw [if_neg (by rw [hflat]; decide), if_pos hflat]
      simp [List.getD_eq_getElem?_getD, List.getElem?_replicate, hiR]
    · intro hnonflat
      by_cases hpt : lic.billing_type = BillingType.per_task
      · simp only [forecastCosts]
        rw [if_pos hpt]
        rw [getD_map_of_lt _ _ _ (by rw [forecastUsage_length]; exact hiR) 0 0]
      · simp only [forecastCosts]
        rw [if_neg hpt, if_neg hnonflat]
        rw [getD_map_of_lt _ _ _ (by rw [forecastUsage_length]; exact hiR) 0 0]

theorem cost_projection_by_billing_model_witness :
    ((generate_forecast nmZero 0 [samplePoint] sampleLicense 1).getD 0
        dummyForecast).predicted_cost =
      ((generate_forecast nmZero 0 [samplePoint] sampleLicense 1).getD 0
        dummyForecast).predicted_usage * 2 := by
  obtain ⟨x, hx⟩ := List.length_eq_one.mp
    (generate_forecast_length nmZero 0 [samplePoint] sampleLicense 1 (by simp))
  have hmem : x ∈ generate_forecast nmZero 0 [samplePoint] sampleLicense 1 := by
    rw [hx]
    exact List.mem_singleton_self x
  have h := (cost_projection_by_billing_model nmZero 0 [samplePoint]
    sampleLicense 1 x hmem).2 (by decide)
  rw [hx]
  simpa [sampleLicense] using h

theorem evalUtilizationStage_conf_bounds (avg : ℚ) :
    7 / 10 ≤ (evalUtilizationStage avg).2.1 ∧
    (evalUtilizationStage avg).2.1 ≤ 9 / 10 := by
  unfold evalUtilizationStage
  split_ifs <;> constructor <;> norm_num

theorem evalCostTrendStage_conf_bounds (ct : String)
    (st : String × ℚ × List String) (h1 : 7 / 10 ≤ st.2.1)
    (h2 : st.2.1 ≤ 9 / 10) :
    7 / 10 ≤ (evalCostTrendStage ct st).2.1 ∧
    (evalCostTrendStage ct st).2.1 ≤ 19 / 20 := by
  unfold evalCostTrendStage
  split_ifs
  · exact ⟨le_min (by linarith) (by norm_num), min_le_right _ _⟩
  · exact ⟨h1, by linarith⟩
  · exact ⟨le_min (by linarith) (by norm_num), min_le_right _ _⟩
  · exact ⟨h1, by linarith⟩

theorem evalAnomalyStage_conf_bounds (n : ℕ) (st : String × ℚ × List String)
    (h1 : 7 / 10 ≤ st.2.1) (h2 : st.2.1 ≤ 19 / 20) :
    3 / 10 ≤ (evalAnomalyStage n st).2.1 ∧
    (evalAnomalyStage n st).2.1 ≤ 19 / 20 := by
  unfold evalAnomalyStage
  split_ifs
  · exact ⟨le_max_right _ _, max_le (by linarith) (by norm_num)⟩
  · exact ⟨by linarith, h2⟩

theorem evalForecastStage_conf_eq (fc : List ForecastData)
    (st : String × ℚ × List String) :
    (evalForecastStage fc st).2.1 = st.2.1 := by
  unfold evalForecastStage
  cases fc with
  | nil => rfl
  | cons a t =>
    dsimp only
    split_ifs <;> rfl

theorem evaluateLicense_conf_bounds (lic : SoftwareLicense) (avg : ℚ)
    (ct : String) (fc : List ForecastData) (an : List AnomalyRecord) :
    3 / 10 ≤ (evaluateLicense lic avg ct fc an).2.1 ∧
    (evaluateLicense lic avg ct fc an).2.1 ≤ 19 / 20 := by
  unfold evaluateLicense
  rw [evalForecastStage_conf_eq]
  have h1 := evalUtilizationStage_conf_bounds avg
  have h2 := evalCostTrendStage_conf_bounds ct _ h1.1 h1.2
  exact evalAnomalyStage_conf_bounds _ _ h2.1 h2.2

/-- C9: every recommendation produced from a non-empty series has confidence
in [0.3, 0.95], strictly inside the [0, 1] range of the output type: bases
are 0.7/0.8/0.9, raises are capped at 0.95 and the anomaly penalty is
floored at 0.3. -/
theorem recommendation_confidence_in_tight_interval (nm : NumModel)
    (F : Detector) (now : ℤ) (lic : SoftwareLicense)
    (usage : List UsageMetric) (_h : usage ≠ []) :
    3 / 10 ≤ (generate_recommendations nm F now lic usage).confidence ∧
    (generate_recommendations nm F now lic usage).confidence ≤ 19 / 20 := by
  simp only [generate_recommendations]
  exact evaluateLicense_conf_bounds _ _ _ _ _

theorem recommendation_confidence_in_tight_interval_witness :
    3 / 10 ≤ (generate_recommendations nmZero detectorNone 0 sampleLicense
      [samplePoint]).confidence ∧
    (generate_recommendations nmZero detectorNone 0 sampleLicense
      [samplePoint]).confidence ≤ 19 / 20 :=
  recommendation_confidence_in_tight_interval nmZero detectorNone 0
    sampleLicense [samplePoint] (by simp)

theorem generate_forecast_getD_ne_nil (nm : NumModel) (now : ℤ)
    (usage : List UsageMetric) (lic : SoftwareLicense) (N i : ℕ)
    (h : usage ≠ []) (hi : i < N) :
    (generate_forecast nm now usage lic N).getD i dummyForecast =
      { license_id := lic.id
        forecast_date := now + i + 1
        predicted_usage :=
          (forecastUsage nm ((sortByDate usage).map (fun r => r.units_used)) N).getD i 0
        predicted_cost :=
          (forecastCosts nm ((sortByDate usage).map (fun r => r.units_used)) lic N).getD i 0
        confidence_score :=
          calculateConfidence nm ((sortByDate usage).map (fun r => r.units_used)) i
        trend :=
          determineTrend ((sortByDate usage).map (fun r => r.units_used))
            (forecastUsage nm ((sortByDate usage).map (fun r => r.units_used)) N)
        seasonal_monthly := 1 + (1 / 10) * nm.sinMonth (now + i + 1)
        seasonal_weekly := 1 + (1 / 20) * nm.sinWeek (now + i + 1) } := by
  obtain ⟨a, t, rfl⟩ := List.exists_cons_of_ne_nil h
  exact generate_forecast_getD_eq nm now a t lic N i hi

/-- C10: the usage projection is never clamped below zero: for the 14-day
declining series (trailing 7-day mean 0, leading 7-day mean 140), horizon 1
and day 0 give a negative predicted usage, hence a negative predicted cost
under per-unit billing. -/
theorem declining_usage_yields_negative_forecast (nm : NumModel)
    (hs : ∀ i : ℕ, |nm.sin30 i| ≤ 1) (now : ℤ) :
    ∃ (usage : List UsageMetric) (lic : SoftwareLicense) (N i : ℕ),
      14 ≤ usage.length ∧
      mean (((sortByDate usage).map (fun r => r.units_used)).drop (usage.length - 7)) <
        mean (((sortByDate usage).map (fun r => r.units_used)).take 7) ∧
      lic.billing_type ≠ BillingType.flat_rate ∧
      i < N ∧
      ((generate_forecast nm now usage lic N).getD i dummyForecast).predicted_usage < 0 ∧
      ((generate_forecast nm now usage lic N).getD i dummyForecast).predicted_cost < 0 := by
  have hsort : sortByDate decliningSeries = decliningSeries := by rfl
  have hunits : decliningSeries.map (fun r => r.units_used) = units14 := by rfl
  have hlen : decliningSeries.length = 14 := by rfl
  have hnil : decliningSeries ≠ [] := by simp [decliningSeries]
  have hs0 := abs_le.mp (hs 0)
  have hfac : 0 < 1 + (1 / 10) * nm.sin30 0 := by nlinarith [hs0.1]
  have husageF : forecastUsage nm units14 1 =
      [-10 * (1 + (1 / 10) * nm.sin30 0)] := by
    rw [forecastUsage, if_neg (by norm_num [units14])]
    rw [show List.range 1 = [0] from rfl]
    norm_num [units14, mean]
  have hneg : (forecastUsage nm units14 1).getD 0 0 < 0 := by
    rw [husageF]
    simp only [List.getD_cons_zero]
    exact mul_neg_of_neg_of_pos (by norm_num) hfac
  refine ⟨decliningSeries, decliningLicense, 1, 0,
    by rw [hlen], ?_, by decide, by norm_num, ?_, ?_⟩
  · rw [hsort, hunits, hlen]
    norm_num [units14, mean]
  · rw [generate_forecast_getD_ne_nil nm now decliningSeries decliningLicense
      1 0 hnil (by norm_num)]
    rw [hsort, hunits]
    exact hneg
  · rw [generate_forecast_getD_ne_nil nm now decliningSeries decliningLicense
      1 0 hnil (by norm_num)]
    rw [hsort, hunits]
    have hcost : (forecastCosts nm units14 decliningLicense 1).getD 0 0 =
        (forecastUsage nm units14 1).getD 0 0 * decliningLicense.cost_per_unit := by
      simp only [forecastCosts]
      rw [if_pos (by decide)]
      rw [getD_map_of_lt _ _ _ (by rw [forecastUsage_length]; norm_num) 0 0]
    rw [hcost]
    have hcpu : decliningLicense.cost_per_unit = 1 := by rfl
    rw [hcpu, mul_one]
    exact hneg

theorem declining_usage_yields_negative_forecast_witness :
    ∃ (usage : List UsageMetric) (lic : SoftwareLicense) (N i : ℕ),
      14 ≤ usage.length ∧
      mean (((sortByDate usage).map (fun r => r.units_used)).drop (usage.length - 7)) <
        mean (((sortByDate usage).map (fun r => r.units_used)).take 7) ∧
      lic.billing_type ≠ BillingType.flat_rate ∧
      i < N ∧
      ((generate_forecast nmZero 0 usage lic N).getD i dummyForecast).predicted_usage < 0 ∧
      ((generate_forecast nmZero 0 usage lic N).getD i dummyForecast).predicted_cost < 0 :=
  declining_usage_yields_negative_forecast nmZero
    (fun i => by norm_num [nmZero]) 0

end ResourceForecast
